import Mathlib

/-!
Shallow embedding of the computational core of a financial dashboard
(src/ui.py): the financial record table, the helpers
`calculate_total_for_account` and `calculate_kpis`, the sidebar filtering,
the business-unit performance gauges and the business-unit comparison table.
Monetary amounts are modelled as rationals; a table is a list of rows.
-/

namespace Dashboard

/-- One row of the financial record table: one account of one business unit
in one year, with twelve monthly amounts (ui.py `all_months` columns). -/
structure Row where
  business_unit : String
  Year : Int
  Account : String
  Jan : ℚ
  Feb : ℚ
  Mar : ℚ
  Apr : ℚ
  May : ℚ
  Jun : ℚ
  Jul : ℚ
  Aug : ℚ
  Sep : ℚ
  Oct : ℚ
  Nov : ℚ
  Dec : ℚ
deriving DecidableEq

/-- The sum of the twelve month columns of a single row;
`row[all_months].sum()` in ui.py. -/
def monthsSum (r : Row) : ℚ :=
  r.Jan + r.Feb + r.Mar + r.Apr + r.May + r.Jun + r.Jul + r.Aug +
    r.Sep + r.Oct + r.Nov + r.Dec

/-- `calculate_total_for_account` (ui.py lines 56-62): keep the rows whose
`Account` equals `account_name`; return 0 when none match, otherwise the sum
of all twelve month columns over the matching rows. -/
def calculate_total_for_account (df : List Row) (account_name : String) : ℚ :=
  let account_df := df.filter (fun r => r.Account == account_name)
  if account_df.isEmpty then 0
  else (account_df.map monthsSum).sum

/-- The KPI bundle returned by `calculate_kpis`. -/
structure KPIBundle where
  total_sales : ℚ
  total_cogs : ℚ
  total_expenses : ℚ
  gross_profit : ℚ
  net_profit : ℚ
  gross_margin : ℚ
  net_margin : ℚ
deriving DecidableEq

/-- `calculate_kpis` (ui.py lines 64-87): sales total, absolute COGS total,
absolute total over all non-sales non-COGS rows, profits, and the two
margins with their divide-by-zero guards. -/
def calculate_kpis (df : List Row) : KPIBundle :=
  let total_sales := calculate_total_for_account df "Sales"
  let total_cogs := |calculate_total_for_account df "Cost of Goods Sold"|
  let expense_accounts :=
    df.filter (fun r => !(List.contains ["Sales", "Cost of Goods Sold"] r.Account))
  let total_expenses := |(expense_accounts.map monthsSum).sum|
  let gross_profit := total_sales - total_cogs
  let net_profit := gross_profit - total_expenses
  let gross_margin := if total_sales ≠ 0 then gross_profit / total_sales * 100 else 0
  let net_margin := if total_sales ≠ 0 then net_profit / total_sales * 100 else 0
  { total_sales := total_sales
    total_cogs := total_cogs
    total_expenses := total_expenses
    gross_profit := gross_profit
    net_profit := net_profit
    gross_margin := gross_margin
    net_margin := net_margin }

/-- The sidebar year selection: `none` stands for the `'All'` entry of the
selectbox, `some y` for a concrete year. -/
abbrev YearSelection := Option Int

/-- The sidebar filtering (ui.py lines 44-49): start from a copy of the
table, keep the selected business unit when it is not `'All'`, then keep the
selected year when it is not `'All'`.  The account-type selection
(`selected_account_type`, read at line 42) appears in no filtering step of
the source. -/
def filtered_df (df : List Row) (selected_business_unit : String)
    (selected_year : YearSelection) (selected_account_type : String) : List Row :=
  let d1 := if selected_business_unit != "All"
    then df.filter (fun r => r.business_unit == selected_business_unit)
    else df
  let d2 := match selected_year with
    | some y => d1.filter (fun r => r.Year == y)
    | none => d1
  d2

/-- First filtering step of ui.py line 47: keep one business unit. -/
def filterByBusinessUnit (df : List Row) (bu : String) : List Row :=
  df.filter (fun r => r.business_unit == bu)

/-- Second filtering step of ui.py line 49: keep one year. -/
def filterByYear (df : List Row) (yr : Int) : List Row :=
  df.filter (fun r => r.Year == yr)

/-- The distinct values of a list in order of first appearance, as pandas
`Series.unique` returns them (ui.py lines 249 and 406). -/
def uniqueValues : List String → List String
  | [] => []
  | x :: xs => x :: uniqueValues (xs.filter (fun y => y != x))
termination_by l => l.length
decreasing_by
  simp only [List.length_cons]
  exact Nat.lt_succ_of_le (List.length_filter_le _ _)

/-- One row of the business-unit comparison table (ui.py lines 409-415). -/
structure BUComparisonRow where
  businessUnit : String
  revenue : ℚ
  expenses : ℚ
  netProfit : ℚ
  netMargin : ℚ
deriving DecidableEq

/-- `bu_comparison_data` (ui.py lines 405-417): one row per distinct
business unit of the filtered table, carrying the unit's KPI values. -/
def bu_comparison_data (df : List Row) : List BUComparisonRow :=
  (uniqueValues (df.map (fun r => r.business_unit))).map (fun bu =>
    let bu_data := df.filter (fun r => r.business_unit == bu)
    let bu_kpis := calculate_kpis bu_data
    { businessUnit := bu
      revenue := bu_kpis.total_sales
      expenses := bu_kpis.total_expenses
      netProfit := bu_kpis.net_profit
      netMargin := bu_kpis.net_margin })

/-- One gauge of the Business Unit Performance panel (ui.py lines 252-268). -/
structure GaugeEntry where
  unit : String
  bu_sales : ℚ
  bu_expenses : ℚ
  efficiency : ℚ
deriving DecidableEq

/-- The Business Unit Performance panel (ui.py lines 249-259): the first
three distinct business units; per unit, the sales total, the absolute sum
of all month columns over the rows whose `Account` is not in `['Sales']`,
and the guarded efficiency ratio. -/
def bu_performance_gauges (df : List Row) : List GaugeEntry :=
  ((uniqueValues (df.map (fun r => r.business_unit))).take 3).map (fun bu =>
    let bu_data := df.filter (fun r => r.business_unit == bu)
    let bu_sales := calculate_total_for_account bu_data "Sales"
    let bu_expenses :=
      |((bu_data.filter (fun r => !(List.contains ["Sales"] r.Account))).map monthsSum).sum|
    let efficiency := if bu_sales ≠ 0 then (bu_sales - bu_expenses) / bu_sales * 100 else 0
    { unit := bu
      bu_sales := bu_sales
      bu_expenses := bu_expenses
      efficiency := efficiency })

/-- Spec-side formula: the sum of all twelve month columns over the rows of
the table that satisfy the predicate. -/
def sumMonthsWhere (df : List Row) (p : Row → Bool) : ℚ :=
  ((df.filter p).map monthsSum).sum

/-- Modelled from the spec: the three-way AND filter of §4.1, which the
claims describe — business unit and year as in the source, and an
account-type bucket read as an equality constraint on `Account`
(`"Sales"` keeps the sales rows, `"Expenses"` the non-sales rows,
`"All"` imposes no constraint). -/
def spec_filtered_df (df : List Row) (selected_business_unit : String)
    (selected_year : YearSelection) (selected_account_type : String) : List Row :=
  df.filter (fun r =>
    (selected_business_unit == "All" || r.business_unit == selected_business_unit) &&
    (match selected_year with
      | some y => r.Year == y
      | none => true) &&
    (selected_account_type == "All" ||
      (if selected_account_type == "Sales"
        then r.Account == "Sales"
        else r.Account != "Sales")))

/-- A sales row of business unit A: Jan 100, Feb 100, other months 0
(the first scenario of spec §8). -/
def salesRowA : Row :=
  { business_unit := "A", Year := 2023, Account := "Sales",
    Jan := 100, Feb := 100, Mar := 0, Apr := 0, May := 0, Jun := 0,
    Jul := 0, Aug := 0, Sep := 0, Oct := 0, Nov := 0, Dec := 0 }

/-- A cost-of-goods-sold row of business unit A: Jan -50, other months 0
(the second scenario of spec §8). -/
def cogsRowA : Row :=
  { business_unit := "A", Year := 2023, Account := "Cost of Goods Sold",
    Jan := -50, Feb := 0, Mar := 0, Apr := 0, May := 0, Jun := 0,
    Jul := 0, Aug := 0, Sep := 0, Oct := 0, Nov := 0, Dec := 0 }

/-- A payroll-expense row of business unit B. -/
def payrollRowB : Row :=
  { business_unit := "B", Year := 2024, Account := "Payroll Expense",
    Jan := -10, Feb := -10, Mar := 0, Apr := 0, May := 0, Jun := 0,
    Jul := 0, Aug := 0, Sep := 0, Oct := 0, Nov := 0, Dec := 0 }

/-- The one-row scenario table of spec §8. -/
def scenarioTable1 : List Row := [salesRowA]

/-- The scenario table of spec §8 with the cost-of-goods-sold row added. -/
def scenarioTable2 : List Row := [salesRowA, cogsRowA]

/-- A table mixing two business units and three accounts. -/
def mixedTable : List Row := [salesRowA, cogsRowA, payrollRowB]

/-- A table with no sales row at all. -/
def expensesOnlyTable : List Row := [payrollRowB]

/-- `calculate_total_for_account` computes the spec-side sum: the explicit
0 of its empty branch is the sum over the empty row list. -/
theorem total_for_account_eq_sum (df : List Row) (a : String) :
    calculate_total_for_account df a =
      sumMonthsWhere df (fun r => r.Account == a) := by
  unfold calculate_total_for_account sumMonthsWhere
  by_cases h : (df.filter (fun r => r.Account == a)).isEmpty
  · rw [if_pos h, List.isEmpty_iff.mp h]
    simp
  · rw [if_neg h]

/-- The membership test of `calculate_kpis` on the two excluded accounts,
as a pair of disequalities. -/
theorem not_contains_sales_cogs (x : String) :
    (!(List.contains ["Sales", "Cost of Goods Sold"] x)) =
      (x != "Sales" && x != "Cost of Goods Sold") := by
  cases h1 : x == "Sales" <;> cases h2 : x == "Cost of Goods Sold" <;>
    simp [List.contains, List.elem, h1, h2, bne]

/-- The membership test of the gauge panel on the single excluded account,
as a disequality. -/
theorem not_contains_sales (x : String) :
    (!(List.contains ["Sales"] x)) = (x != "Sales") := by
  cases h : x == "Sales" <;> simp [List.contains, List.elem, h, bne]

/-- Claim C1: `calculate_kpis` returns the sum of the month columns over the
sales rows as `total_sales`, the absolute value of that sum over the
cost-of-goods-sold rows as `total_cogs`, the absolute value of the sum over
all remaining rows as `total_expenses`, and the two profits as the stated
differences. -/
theorem c1_kpi_formulas (df : List Row) :
    (calculate_kpis df).total_sales =
      sumMonthsWhere df (fun r => r.Account == "Sales") ∧
    (calculate_kpis df).total_cogs =
      |sumMonthsWhere df (fun r => r.Account == "Cost of Goods Sold")| ∧
    (calculate_kpis df).total_expenses =
      |sumMonthsWhere df
        (fun r => r.Account != "Sales" && r.Account != "Cost of Goods Sold")| ∧
    (calculate_kpis df).gross_profit =
      (calculate_kpis df).total_sales - (calculate_kpis df).total_cogs ∧
    (calculate_kpis df).net_profit =
      (calculate_kpis df).gross_profit - (calculate_kpis df).total_expenses := by
  have hexp :
      df.filter (fun r => !(List.contains ["Sales", "Cost of Goods Sold"] r.Account)) =
        df.filter (fun r => r.Account != "Sales" && r.Account != "Cost of Goods Sold") :=
    List.filter_congr (fun x _ => not_contains_sales_cogs x.Account)
  refine ⟨?_, ?_, ?_, rfl, rfl⟩
  · simpa [calculate_kpis] using total_for_account_eq_sum df "Sales"
  · simpa [calculate_kpis] using
      congrArg abs (total_for_account_eq_sum df "Cost of Goods Sold")
  · have hproj : (calculate_kpis df).total_expenses =
        |((df.filter
            (fun r => !(List.contains ["Sales", "Cost of Goods Sold"] r.Account))).map
              monthsSum).sum| := rfl
    rw [hproj, hexp]
    rfl

/-- Claim C3: `calculate_total_for_account` is the sum of all twelve month
columns over exactly the matching rows, and it returns 0 whenever the table
has no row with the requested account label. -/
theorem c3_total_for_account (df : List Row) (account_name : String) :
    calculate_total_for_account df account_name =
      sumMonthsWhere df (fun r => r.Account == account_name) ∧
    ((∀ r ∈ df, r.Account ≠ account_name) →
      calculate_total_for_account df account_name = 0) := by
  refine ⟨total_for_account_eq_sum df account_name, fun h => ?_⟩
  unfold calculate_total_for_account
  have hnil : df.filter (fun r => r.Account == account_name) = [] :=
    List.filter_eq_nil_iff.mpr (fun r hr => by simpa using h r hr)
  simp [hnil]

/-- Witness for C3: the mixed table holds no row with the account label
`"NonexistentAccount"`, and its total for that label is 0. -/
theorem c3_total_for_account_witness :
    calculate_total_for_account mixedTable "NonexistentAccount" = 0 :=
  (c3_total_for_account mixedTable "NonexistentAccount").2 (by decide)

/-- Claim C4: whenever `calculate_kpis` computes a zero sales total, both
margins are the guard value 0 and the division branch is not taken. -/
theorem c4_zero_sales_margins (df : List Row)
    (h : (calculate_kpis df).total_sales = 0) :
    (calculate_kpis df).gross_margin = 0 ∧ (calculate_kpis df).net_margin = 0 := by
  have hs : calculate_total_for_account df "Sales" = 0 := h
  constructor <;> simp [calculate_kpis, hs]

/-- Witness for C4 at a concrete table with no sales row. -/
theorem c4_zero_sales_margins_witness :
    (calculate_kpis expensesOnlyTable).gross_margin = 0 ∧
    (calculate_kpis expensesOnlyTable).net_margin = 0 :=
  c4_zero_sales_margins expensesOnlyTable rfl

/-- Claim C5: every KPI bundle satisfies
`net_profit = total_sales - total_cogs - total_expenses`. -/
theorem c5_net_profit_invariant (df : List Row) :
    (calculate_kpis df).net_profit =
      (calculate_kpis df).total_sales - (calculate_kpis df).total_cogs -
        (calculate_kpis df).total_expenses := rfl

/-- Claim C8: the two concrete scenarios of spec §8 — one sales row with
Jan 100 and Feb 100 gives sales 200 and both margins 100; adding the COGS
row with Jan -50 gives COGS 50, gross profit 150 and gross margin 75. -/
theorem c8_concrete_scenarios :
    (calculate_kpis scenarioTable1).total_sales = 200 ∧
    (calculate_kpis scenarioTable1).gross_margin = 100 ∧
    (calculate_kpis scenarioTable1).net_margin = 100 ∧
    (calculate_kpis scenarioTable2).total_cogs = 50 ∧
    (calculate_kpis scenarioTable2).gross_profit = 150 ∧
    (calculate_kpis scenarioTable2).gross_margin = 75 := by
  have h1 : ("Sales" : String) ≠ "Cost of Goods Sold" := by decide
  have h2 : ("Cost of Goods Sold" : String) ≠ "Sales" := by decide
  refine ⟨?_, ?_, ?_, ?_, ?_, ?_⟩ <;>
    norm_num [calculate_kpis, calculate_total_for_account, scenarioTable1,
      scenarioTable2, salesRowA, cogsRowA, monthsSum, List.filter_cons,
      List.filter_nil, h1, h2, abs_of_nonneg, abs_of_nonpos]

/-- Claim C9: `total_cogs` and `total_expenses` come out of `abs` and are
nonnegative, so `gross_profit ≤ total_sales` and
`net_profit ≤ gross_profit` for every input table. -/
theorem c9_abs_monotonicity (df : List Row) :
    0 ≤ (calculate_kpis df).total_cogs ∧
    0 ≤ (calculate_kpis df).total_expenses ∧
    (calculate_kpis df).gross_profit ≤ (calculate_kpis df).total_sales ∧
    (calculate_kpis df).net_profit ≤ (calculate_kpis df).gross_profit := by
  refine ⟨?_, ?_, ?_, ?_⟩ <;> simp [calculate_kpis]

/-- Claim C6: the business-unit filtering step and the year filtering step
of the sidebar commute — either order selects the same row list. -/
theorem c6_filters_commute (df : List Row) (bu : String) (yr : Int) :
    filterByYear (filterByBusinessUnit df bu) yr =
      filterByBusinessUnit (filterByYear df yr) bu := by
  simp only [filterByYear, filterByBusinessUnit, List.filter_filter]
  exact List.filter_congr fun x _ => Bool.and_comm _ _

/-- Claim C2 as stated is false on the source: with no business-unit and no
year constraint but the account-type selection `"Sales"`, the source keeps
the payroll-expense row that the three-way conjunction excludes; the
account-type widget takes part in no filtering step. -/
theorem c2_counterexample :
    filtered_df expensesOnlyTable "All" none "Sales" ≠
      spec_filtered_df expensesOnlyTable "All" none "Sales" := by
  have hl : filtered_df expensesOnlyTable "All" none "Sales" = [payrollRowB] := rfl
  have hr : spec_filtered_df expensesOnlyTable "All" none "Sales" = [] := rfl
  rw [hl, hr]
  simp

/-- Claim C2 (amended): the filtered row set is exactly the rows satisfying
the conjunction of the business-unit and year equality constraints, with
`'All'` imposing no constraint; the account-type selection has no effect on
the row set. -/
theorem c2_amended_filtering (df : List Row) (bu : String) (yr : YearSelection)
    (acct acct2 : String) :
    filtered_df df bu yr acct =
      df.filter (fun r =>
        (bu == "All" || r.business_unit == bu) &&
        (match yr with
          | some y => r.Year == y
          | none => true)) ∧
    filtered_df df bu yr acct = filtered_df df bu yr acct2 := by
  refine ⟨?_, rfl⟩
  unfold filtered_df
  cases hb : bu == "All" with
  | true =>
    have hb' : (bu != "All") = false := by simp [bne, hb]
    cases yr <;> simp [hb', hb]
  | false =>
    have hb' : (bu != "All") = true := by simp [bne, hb]
    cases yr with
    | none => simp [hb', hb]
    | some y =>
      simp only [hb', hb, if_true, Bool.false_or, List.filter_filter]
      exact List.filter_congr fun x _ => Bool.and_comm _ _

/-- A value is listed by `uniqueValues` exactly when it occurs in the list. -/
theorem mem_uniqueValues : ∀ (l : List String) (a : String),
    a ∈ uniqueValues l ↔ a ∈ l
  | [], a => by simp [uniqueValues]
  | x :: xs, a => by
    rw [uniqueValues]
    by_cases hax : a = x
    · subst hax
      simp
    · simp only [List.mem_cons]
      rw [mem_uniqueValues (xs.filter (fun y => y != x)) a]
      simp [List.mem_filter, hax, bne_iff_ne]
termination_by l _ => l.length
decreasing_by
  simp only [List.length_cons]
  exact Nat.lt_succ_of_le (List.length_filter_le _ _)

/-- `uniqueValues` lists every value once. -/
theorem nodup_uniqueValues : ∀ l : List String, (uniqueValues l).Nodup
  | [] => by simp [uniqueValues]
  | x :: xs => by
    rw [uniqueValues]
    refine List.nodup_cons.mpr
      ⟨fun hx => ?_, nodup_uniqueValues (xs.filter (fun y => y != x))⟩
    have hmem := (mem_uniqueValues _ _).mp hx
    simp [List.mem_filter] at hmem
termination_by l => l.length
decreasing_by
  simp only [List.length_cons]
  exact Nat.lt_succ_of_le (List.length_filter_le _ _)

/-- Claim C7: the business-unit comparison carries exactly one row per
distinct business unit of the table, and each row's Revenue, Expenses,
Net Profit and Net Margin are the corresponding fields of `calculate_kpis`
on the rows of that single business unit. -/
theorem c7_bu_comparison (df : List Row) :
    (bu_comparison_data df).map BUComparisonRow.businessUnit =
      uniqueValues (df.map (fun r => r.business_unit)) ∧
    ((bu_comparison_data df).map BUComparisonRow.businessUnit).Nodup ∧
    (∀ u : String,
      u ∈ (bu_comparison_data df).map BUComparisonRow.businessUnit ↔
        u ∈ df.map (fun r => r.business_unit)) ∧
    (∀ row ∈ bu_comparison_data df,
      row.revenue =
        (calculate_kpis
          (df.filter (fun r => r.business_unit == row.businessUnit))).total_sales ∧
      row.expenses =
        (calculate_kpis
          (df.filter (fun r => r.business_unit == row.businessUnit))).total_expenses ∧
      row.netProfit =
        (calculate_kpis
          (df.filter (fun r => r.business_unit == row.businessUnit))).net_profit ∧
      row.netMargin =
        (calculate_kpis
          (df.filter (fun r => r.business_unit == row.businessUnit))).net_margin) := by
  have hmap : (bu_comparison_data df).map BUComparisonRow.businessUnit =
      uniqueValues (df.map (fun r => r.business_unit)) := by
    simp [bu_comparison_data, List.map_map, Function.comp_def]
  refine ⟨hmap, ?_, ?_, ?_⟩
  · rw [hmap]
    exact nodup_uniqueValues _
  · intro u
    rw [hmap]
    exact mem_uniqueValues _ u
  · intro row hrow
    simp only [bu_comparison_data, List.mem_map] at hrow
    obtain ⟨bu, -, rfl⟩ := hrow
    exact ⟨rfl, rfl, rfl, rfl⟩

/-- Claim C10: the performance panel shows at most the first three distinct
business units, the gauge's expense total is the absolute month-column sum
over the unit's non-sales rows (so cost of goods sold counts as an expense
there), and efficiency is the guarded ratio. -/
theorem c10_performance_gauges (df : List Row) :
    (bu_performance_gauges df).map GaugeEntry.unit =
      (uniqueValues (df.map (fun r => r.business_unit))).take 3 ∧
    (bu_performance_gauges df).length ≤ 3 ∧
    (∀ e ∈ bu_performance_gauges df,
      e.bu_sales =
        calculate_total_for_account
          (df.filter (fun r => r.business_unit == e.unit)) "Sales" ∧
      e.bu_expenses =
        |sumMonthsWhere (df.filter (fun r => r.business_unit == e.unit))
          (fun r => r.Account != "Sales")| ∧
      e.efficiency =
        (if e.bu_sales ≠ 0 then (e.bu_sales - e.bu_expenses) / e.bu_sales * 100
          else 0)) := by
  refine ⟨?_, ?_, ?_⟩
  · simp [bu_performance_gauges, List.map_map, Function.comp_def]
  · calc (bu_performance_gauges df).length
        = ((uniqueValues (df.map (fun r => r.business_unit))).take 3).length := by
          simp [bu_performance_gauges]
      _ ≤ 3 := by
          rw [List.length_take]
          exact min_le_left _ _
  · intro e he
    simp only [bu_performance_gauges, List.mem_map] at he
    obtain ⟨bu, -, rfl⟩ := he
    refine ⟨rfl, ?_, rfl⟩
    have hfl : (df.filter (fun r => r.business_unit == bu)).filter
          (fun r => !(List.contains ["Sales"] r.Account)) =
        (df.filter (fun r => r.business_unit == bu)).filter
          (fun r => r.Account != "Sales") :=
      List.filter_congr fun x _ => not_contains_sales x.Account
    show |(((df.filter (fun r => r.business_unit == bu)).filter
        (fun r => !(List.contains ["Sales"] r.Account))).map monthsSum).sum| = _
    rw [hfl]
    rfl

end Dashboard
